import Mathlib

/-!
Verification development for the react-native-powerauth-mobile-sdk wrapper.

The TypeScript sources under `src/lib/PowerAuth.d.ts` (declaration plus the
compiled class body) and the `PowerAuthAuthentication` model class are embedded
as executable Lean definitions.  Behaviour implemented on the native side of
the bridge (the activation state machine, the signature counter, the commit
persistence protocol and counter resynchronization) is not present in the
TypeScript sources; those parts are modelled from the design specification and
from the documentation comments shipped with the declarations, and each such
definition carries a doc comment saying so.
-/

/-- Error kinds surfaced by the SDK wrapper, as named in the design
specification's error taxonomy. -/
inductive PowerAuthErrorCode where
  | alreadyConfigured
  | missingActivation
  | invalidActivationState
  | wrongPassword
  | networkError
  | counterDesynchronized
  | storageError
deriving DecidableEq

/-- Basic configuration parameters of a PowerAuth instance, with the fields
documented in `src/docs/Configuration.md`. -/
structure PowerAuthConfiguration where
  appKey : String
  appSecret : String
  masterServerPublicKey : String
  baseEndpointUrl : String
deriving DecidableEq

/-- Modelled from the spec: configuration of the internal HTTP client, with the
fields documented in `src/docs/Configuration.md` (the model class itself is not
part of the TypeScript sources here). -/
structure PowerAuthClientConfiguration where
  enableUnsecureTraffic : Bool
  connectionTimeout : Nat
  readTimeout : Nat
deriving DecidableEq

/-- Modelled from the spec: the documented default client configuration, with
unsecure traffic disabled and both timeouts at 20 seconds. -/
def PowerAuthClientConfiguration.default : PowerAuthClientConfiguration :=
  { enableUnsecureTraffic := false, connectionTimeout := 20, readTimeout := 20 }

/-- Modelled from the spec: biometry configuration, with the fields documented
in `src/docs/Configuration.md`. -/
structure PowerAuthBiometryConfiguration where
  linkItemsToCurrentSet : Bool
  fallbackToDevicePasscode : Bool
  confirmBiometricAuthentication : Bool
  authenticateOnBiometricKeySetup : Bool
deriving DecidableEq

/-- Modelled from the spec: the documented default biometry configuration
(`linkItemsToCurrentSet` uses the Android default value `true`). -/
def PowerAuthBiometryConfiguration.default : PowerAuthBiometryConfiguration :=
  { linkItemsToCurrentSet := true, fallbackToDevicePasscode := false,
    confirmBiometricAuthentication := false, authenticateOnBiometricKeySetup := true }

/-- Modelled from the spec: minimal required keychain protection levels named
in `src/docs/Configuration.md`. -/
inductive PowerAuthKeychainProtection where
  | none
  | software
  | hardware
deriving DecidableEq

/-- Modelled from the spec: keychain configuration, with the fields documented
in `src/docs/Configuration.md`. -/
structure PowerAuthKeychainConfiguration where
  accessGroupName : Option String
  userDefaultsSuiteName : Option String
  minimalRequiredKeychainProtection : PowerAuthKeychainProtection
deriving DecidableEq

/-- Modelled from the spec: the documented default keychain configuration. -/
def PowerAuthKeychainConfiguration.default : PowerAuthKeychainConfiguration :=
  { accessGroupName := Option.none, userDefaultsSuiteName := Option.none,
    minimalRequiredKeychainProtection := PowerAuthKeychainProtection.none }

/-- The four cached configuration properties stored on the JavaScript
`PowerAuth` object (`configuration`, `clientConfiguration`,
`biometryConfiguration`, `keychainConfiguration`); each is `undefined` or
`null` until `configure` runs, modelled by `Option`. -/
structure PowerAuthJSProperties where
  configuration : Option PowerAuthConfiguration
  clientConfiguration : Option PowerAuthClientConfiguration
  biometryConfiguration : Option PowerAuthBiometryConfiguration
  keychainConfiguration : Option PowerAuthKeychainConfiguration
deriving DecidableEq

/-- The configuration held by the native side of the bridge after a successful
native `configure` call. -/
structure NativeConfiguredState where
  configuration : PowerAuthConfiguration
  clientConfiguration : PowerAuthClientConfiguration
  biometryConfiguration : PowerAuthBiometryConfiguration
  keychainConfiguration : PowerAuthKeychainConfiguration
deriving DecidableEq

/-- Modelled from the spec: the native `configure` call fails with
`AlreadyConfigured` and keeps its stored configuration when the instance is
already configured; otherwise it stores the supplied configuration and
succeeds.  The native implementation is not part of the TypeScript sources. -/
def nativeConfigure (native : Option NativeConfiguredState)
    (c : PowerAuthConfiguration) (cc : PowerAuthClientConfiguration)
    (bc : PowerAuthBiometryConfiguration) (kc : PowerAuthKeychainConfiguration) :
    Option NativeConfiguredState × Except PowerAuthErrorCode Bool :=
  match native with
  | Option.some cfg => (Option.some cfg, Except.error PowerAuthErrorCode.alreadyConfigured)
  | Option.none => (Option.some ⟨c, cc, bc, kc⟩, Except.ok true)

/-- The two overloaded argument forms accepted by `PowerAuth.prototype.configure`:
either a `PowerAuthConfiguration` object with three optional sub-configuration
objects, or five positional primitives (appKey, appSecret,
masterServerPublicKey, baseEndpointUrl, enableUnsecureTraffic). -/
inductive ConfigureArgs where
  | objects (configuration : PowerAuthConfiguration)
      (clientConfiguration : Option PowerAuthClientConfiguration)
      (biometryConfiguration : Option PowerAuthBiometryConfiguration)
      (keychainConfiguration : Option PowerAuthKeychainConfiguration)
  | positional (appKey appSecret masterServerPublicKey baseEndpointUrl : String)
      (enableUnsecureTraffic : Bool)
deriving DecidableEq

/-- Argument resolution performed at the top of `PowerAuth.prototype.configure`:
in the object form each missing or null sub-configuration is replaced by the
corresponding `default()`; in the positional form a `PowerAuthConfiguration`
is built from the four strings and the defaults are used, with the client
configuration's `enableUnsecureTraffic` set from the fifth argument. -/
def resolveConfigureArgs : ConfigureArgs →
    PowerAuthConfiguration × PowerAuthClientConfiguration ×
      PowerAuthBiometryConfiguration × PowerAuthKeychainConfiguration
  | ConfigureArgs.objects c cc bc kc =>
      (c, cc.getD PowerAuthClientConfiguration.default,
        bc.getD PowerAuthBiometryConfiguration.default,
        kc.getD PowerAuthKeychainConfiguration.default)
  | ConfigureArgs.positional k s m u e =>
      (⟨k, s, m, u⟩,
        { PowerAuthClientConfiguration.default with enableUnsecureTraffic := e },
        PowerAuthBiometryConfiguration.default,
        PowerAuthKeychainConfiguration.default)

/-- Embedding of `PowerAuth.prototype.configure`: resolve the arguments,
unconditionally store the four resolved objects into the cached JavaScript
properties, then invoke the native `configure` with the resolved objects and
return its result. -/
def PowerAuth.configure (js : PowerAuthJSProperties)
    (native : Option NativeConfiguredState) (args : ConfigureArgs) :
    PowerAuthJSProperties × Option NativeConfiguredState × Except PowerAuthErrorCode Bool :=
  match resolveConfigureArgs args with
  | (c, cc, bc, kc) =>
    match nativeConfigure native c cc bc kc with
    | (native2, result) =>
      (⟨Option.some c, Option.some cc, Option.some bc, Option.some kc⟩, native2, result)

/-- Embedding of `PowerAuth.prototype.deconfigure`: the four cached properties
are set to null before the native call is awaited, so the cleared properties
are returned regardless of the native outcome, which is passed through. -/
def PowerAuth.deconfigure (js : PowerAuthJSProperties)
    (nativeResult : Except PowerAuthErrorCode Bool) :
    PowerAuthJSProperties × Except PowerAuthErrorCode Bool :=
  (⟨Option.none, Option.none, Option.none, Option.none⟩, nativeResult)

/-- A first sample configuration used to exercise concrete configure runs. -/
def sampleConfigA : PowerAuthConfiguration :=
  ⟨"appKeyA", "appSecretA", "masterKeyA", "https://a.example.com/"⟩

/-- A second sample configuration, distinct from `sampleConfigA`. -/
def sampleConfigB : PowerAuthConfiguration :=
  ⟨"appKeyB", "appSecretB", "masterKeyB", "https://b.example.com/"⟩

/-- A concrete first `configure` run on a fresh instance with `sampleConfigA`. -/
def firstConfigureRun :
    PowerAuthJSProperties × Option NativeConfiguredState × Except PowerAuthErrorCode Bool :=
  PowerAuth.configure ⟨Option.none, Option.none, Option.none, Option.none⟩ Option.none
    (ConfigureArgs.objects sampleConfigA Option.none Option.none Option.none)

/-- A concrete second `configure` run on the same instance with `sampleConfigB`. -/
def secondConfigureRun :
    PowerAuthJSProperties × Option NativeConfiguredState × Except PowerAuthErrorCode Bool :=
  PowerAuth.configure firstConfigureRun.1 firstConfigureRun.2.1
    (ConfigureArgs.objects sampleConfigB Option.none Option.none Option.none)

/-- C4 counterexample: on an already-configured instance the second `configure`
call does fail with `AlreadyConfigured`, but the cached `configuration`
property observable after the failed call holds the second call's
configuration, not the one established by the first call, because the wrapper
overwrites the cached properties before invoking the native `configure`. -/
theorem configure_second_call_overwrites_cached_config :
    secondConfigureRun.2.2 = Except.error PowerAuthErrorCode.alreadyConfigured ∧
    secondConfigureRun.1.configuration = Option.some sampleConfigB ∧
    sampleConfigB ≠ sampleConfigA :=
  ⟨rfl, rfl, by decide⟩

/-- C4 amended: a second `configure` on an already-configured instance always
fails with `AlreadyConfigured` and leaves the native configuration established
by the first call unchanged, but the cached JavaScript properties are
overwritten with the second call's resolved arguments before the failure. -/
theorem configure_already_configured_behavior
    (js : PowerAuthJSProperties) (n : NativeConfiguredState) (args : ConfigureArgs) :
    (PowerAuth.configure js (Option.some n) args).2.2 =
      Except.error PowerAuthErrorCode.alreadyConfigured ∧
    (PowerAuth.configure js (Option.some n) args).2.1 = Option.some n ∧
    (PowerAuth.configure js (Option.some n) args).1 =
      ⟨Option.some (resolveConfigureArgs args).1,
        Option.some (resolveConfigureArgs args).2.1,
        Option.some (resolveConfigureArgs args).2.2.1,
        Option.some (resolveConfigureArgs args).2.2.2⟩ := by
  refine ⟨?_, ?_, ?_⟩ <;> simp [PowerAuth.configure, nativeConfigure]

/-- C9: when the object form of `configure` omits the optional
sub-configurations, the native `configure` is invoked with the three
`default()` configurations; in the five-argument positional form the same
defaults are used, with the client configuration's `enableUnsecureTraffic`
field set from the fifth argument. -/
theorem configure_uses_default_subconfigurations
    (js : PowerAuthJSProperties) (c : PowerAuthConfiguration)
    (k s m u : String) (e : Bool) :
    (PowerAuth.configure js Option.none
        (ConfigureArgs.objects c Option.none Option.none Option.none)).2.1 =
      Option.some ⟨c, PowerAuthClientConfiguration.default,
        PowerAuthBiometryConfiguration.default, PowerAuthKeychainConfiguration.default⟩ ∧
    (PowerAuth.configure js Option.none (ConfigureArgs.positional k s m u e)).2.1 =
      Option.some ⟨⟨k, s, m, u⟩,
        { PowerAuthClientConfiguration.default with enableUnsecureTraffic := e },
        PowerAuthBiometryConfiguration.default, PowerAuthKeychainConfiguration.default⟩ :=
  ⟨rfl, rfl⟩

/-- C10: `deconfigure` sets all four cached configuration properties to null
unconditionally before the native deconfigure call is awaited, so they are
cleared whatever the native call returns, and the native result is passed
through unchanged. -/
theorem deconfigure_clears_cached_config
    (js : PowerAuthJSProperties) (r : Except PowerAuthErrorCode Bool) :
    (PowerAuth.deconfigure js r).1.configuration = Option.none ∧
    (PowerAuth.deconfigure js r).1.clientConfiguration = Option.none ∧
    (PowerAuth.deconfigure js r).1.biometryConfiguration = Option.none ∧
    (PowerAuth.deconfigure js r).1.keychainConfiguration = Option.none ∧
    (PowerAuth.deconfigure js r).2 = r :=
  ⟨rfl, rfl, rfl, rfl, rfl⟩

/-- The multi-factor authentication object from the `PowerAuthAuthentication`
model class: possession and biometry flags, optional knowledge-factor password
and optional biometric prompt strings. -/
structure PowerAuthAuthentication where
  usePossession : Bool
  useBiometry : Bool
  userPassword : Option String
  biometryMessage : Option String
  biometryTitle : Option String
deriving DecidableEq

/-- JavaScript exceptions flowing through the wrapper: either a
`PowerAuthError` wrapping an optional original exception together with a
message, or an opaque exception from the native layer. -/
inductive JSException where
  | powerAuthError (cause : Option JSException) (message : String)
  | nativeException (code : String)

/-- Trace of the observable collaborator interactions performed by one
`groupedBiometricAuthentication` call: each entry of `authenticateCalls`
records one biometric gate unlock request (the descriptor passed to the
wrapper's `authenticate` and the make-reusable flag), and each entry of
`callbackCalls` records one invocation of the supplied
`groupedAuthenticationCalls` callback with the descriptor it received. -/
structure GroupedTrace where
  authenticateCalls : List (PowerAuthAuthentication × Bool)
  callbackCalls : List PowerAuthAuthentication

/-- Embedding of `PowerAuth.prototype.groupedBiometricAuthentication`.  The
wrapper's `authenticate` and `processException` live on the native side of the
bridge and are taken as oracle parameters; the callback outcome is likewise a
parameter.  Faithful to the source: a descriptor with `useBiometry == false`
throws a fresh `PowerAuthError` before any other work; otherwise one
`authenticate(authentication, true)` call is made, and on its success the
callback is invoked exactly once with the reusable descriptor.  A callback
failure is wrapped in a `PowerAuthError` which the outer catch passes through
`processException`; an `authenticate` failure goes through `processException`
directly. -/
def groupedBiometricAuthentication
    (processException : JSException → JSException)
    (authenticate : PowerAuthAuthentication → Bool → Except JSException PowerAuthAuthentication)
    (authentication : PowerAuthAuthentication)
    (groupedAuthenticationCalls : PowerAuthAuthentication → Except JSException Unit) :
    GroupedTrace × Except JSException Unit :=
  if authentication.useBiometry == false then
    (⟨[], []⟩, Except.error (JSException.powerAuthError Option.none
      "Requesting biometric authentication, but useBiometry is set to false."))
  else
    match authenticate authentication true with
    | Except.error e =>
        (⟨[(authentication, true)], []⟩, Except.error (processException e))
    | Except.ok reusable =>
        match groupedAuthenticationCalls reusable with
        | Except.ok _ => (⟨[(authentication, true)], [reusable]⟩, Except.ok ())
        | Except.error e =>
            (⟨[(authentication, true)], [reusable]⟩,
              Except.error (processException (JSException.powerAuthError (Option.some e)
                "Your groupedAuthenticationCalls function threw an exception. Please make sure that you catch errors yourself.")))

/-- C5: for a descriptor with `useBiometry == true`,
`groupedBiometricAuthentication` performs exactly one biometric gate unlock --
a single call to the underlying `authenticate` with the reusable flag set --
and, when that unlock yields the reusable descriptor, invokes the supplied
callback exactly once with that reusable descriptor, whether or not the
callback itself succeeds. -/
theorem grouped_biometric_single_unlock
    (processException : JSException → JSException)
    (authenticate : PowerAuthAuthentication → Bool → Except JSException PowerAuthAuthentication)
    (authentication : PowerAuthAuthentication)
    (callback : PowerAuthAuthentication → Except JSException Unit)
    (hb : authentication.useBiometry = true) :
    (groupedBiometricAuthentication processException authenticate authentication
        callback).1.authenticateCalls = [(authentication, true)] ∧
    ∀ reusable, authenticate authentication true = Except.ok reusable →
      (groupedBiometricAuthentication processException authenticate authentication
          callback).1.callbackCalls = [reusable] := by
  have hcond : (authentication.useBiometry == false) = false := by rw [hb]; rfl
  constructor
  · cases h1 : authenticate authentication true with
    | error e => simp [groupedBiometricAuthentication, hcond, h1]
    | ok reusable =>
        cases h2 : callback reusable with
        | error e => simp [groupedBiometricAuthentication, hcond, h1, h2]
        | ok u => simp [groupedBiometricAuthentication, hcond, h1, h2]
  · intro reusable hr
    cases h2 : callback reusable with
    | error e => simp [groupedBiometricAuthentication, hcond, hr, h2]
    | ok u => simp [groupedBiometricAuthentication, hcond, hr, h2]

/-- C5 witness: a concrete run with a biometry-enabled descriptor, an unlock
oracle returning the descriptor itself and a succeeding callback performs one
gate unlock and one callback invocation. -/
theorem grouped_biometric_single_unlock_witness :
    (groupedBiometricAuthentication (fun e => e) (fun a _ => Except.ok a)
        ⟨true, true, Option.none, Option.none, Option.none⟩
        (fun _ => Except.ok ())).1.authenticateCalls =
      [(⟨true, true, Option.none, Option.none, Option.none⟩, true)] ∧
    (groupedBiometricAuthentication (fun e => e) (fun a _ => Except.ok a)
        ⟨true, true, Option.none, Option.none, Option.none⟩
        (fun _ => Except.ok ())).1.callbackCalls =
      [⟨true, true, Option.none, Option.none, Option.none⟩] := by
  have h := grouped_biometric_single_unlock (fun e => e) (fun a _ => Except.ok a)
    ⟨true, true, Option.none, Option.none, Option.none⟩ (fun _ => Except.ok ()) rfl
  exact ⟨h.1, h.2 ⟨true, true, Option.none, Option.none, Option.none⟩ rfl⟩

/-- C6: for a descriptor with `useBiometry == false`,
`groupedBiometricAuthentication` fails with a `PowerAuthError` thrown before
any other work, performing no biometric gate unlock and never invoking the
supplied callback. -/
theorem grouped_biometric_rejects_without_biometry
    (processException : JSException → JSException)
    (authenticate : PowerAuthAuthentication → Bool → Except JSException PowerAuthAuthentication)
    (authentication : PowerAuthAuthentication)
    (callback : PowerAuthAuthentication → Except JSException Unit)
    (hb : authentication.useBiometry = false) :
    groupedBiometricAuthentication processException authenticate authentication callback =
      (⟨[], []⟩, Except.error (JSException.powerAuthError Option.none
        "Requesting biometric authentication, but useBiometry is set to false.")) := by
  have hcond : (authentication.useBiometry == false) = true := by rw [hb]; rfl
  simp [groupedBiometricAuthentication, hcond]

/-- C6 witness: a concrete descriptor with biometry disabled is rejected with
the documented `PowerAuthError`, with empty interaction trace. -/
theorem grouped_biometric_rejects_without_biometry_witness :
    groupedBiometricAuthentication (fun e => e) (fun a _ => Except.ok a)
        ⟨true, false, Option.some "pw", Option.none, Option.none⟩
        (fun _ => Except.ok ()) =
      (⟨[], []⟩, Except.error (JSException.powerAuthError Option.none
        "Requesting biometric authentication, but useBiometry is set to false.")) :=
  grouped_biometric_rejects_without_biometry (fun e => e) (fun a _ => Except.ok a)
    ⟨true, false, Option.some "pw", Option.none, Option.none⟩ (fun _ => Except.ok ()) rfl

/-- Modelled from the spec: activation lifecycle states of the session state
machine. -/
inductive ActivationStatus where
  | noActivation
  | pendingCreation
  | valid
  | blocked
  | removed
  | deadlock
deriving DecidableEq

/-- Modelled from the spec: the persisted activation record of one instance:
lifecycle status, signature counter, server-assigned identifier, and presence
flags for the stored possession, knowledge and biometry factor keys. -/
structure SessionState where
  status : ActivationStatus
  signatureCounter : Nat
  activationId : Option String
  possessionKeyPresent : Bool
  knowledgeKeyPresent : Bool
  biometryKeyPresent : Bool
deriving DecidableEq

/-- Modelled from the spec: one signed call through the native signature
engine.  It requires a Valid activation and otherwise fails with
MissingActivation; a successful signature is bound to the current counter
value, and the counter advances by exactly one and is persisted before the
result is returned. -/
def signedCall (s : SessionState) : Except PowerAuthErrorCode (SessionState × Nat) :=
  if s.status = ActivationStatus.valid then
    Except.ok ({ s with signatureCounter := s.signatureCounter + 1 }, s.signatureCounter)
  else
    Except.error PowerAuthErrorCode.missingActivation

/-- The three signature entry points exposed by the wrapper. -/
inductive SigningOp where
  | requestSignature
  | requestGetSignature
  | offlineSignature
deriving DecidableEq

/-- Modelled from the spec: each of `requestSignature`, `requestGetSignature`
and `offlineSignature` forwards to the native signature engine, whose counter
and state behaviour is `signedCall`. -/
def applySigningOp (op : SigningOp) (s : SessionState) :
    Except PowerAuthErrorCode (SessionState × Nat) :=
  signedCall s

/-- Modelled from the spec: `fetchEncryptionKey` unlocks the vault through a
signed vault-unlock request, so it is layered on the signature engine and
requires a Valid activation. -/
def fetchEncryptionKeyOp (s : SessionState) :
    Except PowerAuthErrorCode (SessionState × Nat) :=
  signedCall s

/-- Modelled from the spec: `signDataWithDevicePrivateKey` unlocks the vault
through a signed vault-unlock request, so it is layered on the signature
engine and requires a Valid activation. -/
def signDataWithDevicePrivateKeyOp (s : SessionState) :
    Except PowerAuthErrorCode (SessionState × Nat) :=
  signedCall s

/-- Run a sequence of signing operations, threading the session state and
collecting the counter value bound into each produced signature. -/
def runSigningOps (ops : List SigningOp) (s : SessionState) :
    Except PowerAuthErrorCode (SessionState × List Nat) :=
  match ops with
  | [] => Except.ok (s, [])
  | op :: rest =>
      match applySigningOp op s with
      | Except.error e => Except.error e
      | Except.ok (s2, c) =>
          match runSigningOps rest s2 with
          | Except.error e => Except.error e
          | Except.ok (s3, cs) => Except.ok (s3, c :: cs)

/-- On a Valid activation a run of signing operations always succeeds, the
counter advances by the number of operations, and the counter values bound
into the signatures are the consecutive naturals starting at the initial
counter. -/
theorem runSigningOps_valid (ops : List SigningOp) :
    ∀ s : SessionState, s.status = ActivationStatus.valid →
      runSigningOps ops s =
        Except.ok ({ s with signatureCounter := s.signatureCounter + ops.length },
          List.range' s.signatureCounter ops.length) := by
  induction ops with
  | nil =>
      intro s hs
      simp [runSigningOps, List.range']
  | cons op rest ih =>
      intro s hs
      have h1 : applySigningOp op s =
          Except.ok ({ s with signatureCounter := s.signatureCounter + 1 },
            s.signatureCounter) := by
        simp [applySigningOp, signedCall, hs]
      have h2 := ih { s with signatureCounter := s.signatureCounter + 1 } hs
      simp only [runSigningOps, h1, h2, List.length_cons, List.range']
      have hc : s.signatureCounter + 1 + rest.length =
          s.signatureCounter + (rest.length + 1) := by omega
      rw [hc]

/-- C1: for every valid signing sequence starting from a Valid activation,
after N successful signature operations the signature counter equals its
initial value plus N, and the counter values bound into the produced
signatures are pairwise distinct, so no counter value is ever reused by a
later signature. -/
theorem counter_advances_per_signature
    (ops : List SigningOp) (s s2 : SessionState) (used : List Nat)
    (hs : s.status = ActivationStatus.valid)
    (hrun : runSigningOps ops s = Except.ok (s2, used)) :
    s2.signatureCounter = s.signatureCounter + ops.length ∧ used.Nodup := by
  rw [runSigningOps_valid ops s hs] at hrun
  simp only [Except.ok.injEq, Prod.mk.injEq] at hrun
  obtain ⟨h1, h2⟩ := hrun
  subst h2
  rw [← h1]
  exact ⟨rfl, List.nodup_range' s.signatureCounter ops.length⟩

/-- C1 witness: three successful signature operations starting at counter 5
advance the counter to 8 and bind the pairwise distinct counter values 5, 6
and 7. -/
theorem counter_advances_per_signature_witness :
    (⟨ActivationStatus.valid, 8, Option.some "act", true, true, false⟩ : SessionState).signatureCounter =
      (⟨ActivationStatus.valid, 5, Option.some "act", true, true, false⟩ : SessionState).signatureCounter + 3 ∧
    ([5, 6, 7] : List Nat).Nodup :=
  counter_advances_per_signature
    [SigningOp.requestSignature, SigningOp.requestGetSignature, SigningOp.offlineSignature]
    ⟨ActivationStatus.valid, 5, Option.some "act", true, true, false⟩
    ⟨ActivationStatus.valid, 8, Option.some "act", true, true, false⟩
    [5, 6, 7] rfl rfl

/-- Modelled from the spec and from the declaration documentation in
src/lib/PowerAuth.d.ts: `removeActivationLocal` removes the activation
session state (status, identifier, counter, knowledge-factor protected data)
and the biometry factor key, while the cached possession related key remains
intact; the server is not informed. -/
def removeActivationLocalOp (s : SessionState) : SessionState :=
  { status := ActivationStatus.noActivation, signatureCounter := 0,
    activationId := Option.none,
    possessionKeyPresent := s.possessionKeyPresent,
    knowledgeKeyPresent := false, biometryKeyPresent := false }

/-- Modelled from the spec: `removeActivationWithAuthentication` calls the
remote removal endpoint with a signed request first, and clears the local
activation state -- reusing the local removal for the clearing step -- only
when the remote call succeeds. -/
def removeActivationWithAuthenticationOp (s : SessionState) (remoteOk : Bool) :
    SessionState × Except PowerAuthErrorCode Unit :=
  if remoteOk then (removeActivationLocalOp s, Except.ok ())
  else (s, Except.error PowerAuthErrorCode.networkError)

/-- C3: every signing operation and every vault-unlock-dependent call fails
with MissingActivation whenever the activation status is not Valid; in
particular, after `removeActivationLocal` from a Valid state a subsequent
`requestSignature` fails with MissingActivation. -/
theorem signing_requires_valid_activation (s : SessionState) :
    (s.status ≠ ActivationStatus.valid →
      (∀ op, applySigningOp op s = Except.error PowerAuthErrorCode.missingActivation) ∧
      fetchEncryptionKeyOp s = Except.error PowerAuthErrorCode.missingActivation ∧
      signDataWithDevicePrivateKeyOp s = Except.error PowerAuthErrorCode.missingActivation) ∧
    (s.status = ActivationStatus.valid →
      applySigningOp SigningOp.requestSignature (removeActivationLocalOp s) =
        Except.error PowerAuthErrorCode.missingActivation) := by
  constructor
  · intro h
    refine ⟨fun op => ?_, ?_, ?_⟩ <;>
      simp [applySigningOp, fetchEncryptionKeyOp, signDataWithDevicePrivateKeyOp,
        signedCall, h]
  · intro h
    simp [applySigningOp, signedCall, removeActivationLocalOp]

/-- C3 witness: with no activation, `requestSignature` fails with
MissingActivation; and after a local removal from a concrete Valid state, a
subsequent `requestSignature` fails with MissingActivation. -/
theorem signing_requires_valid_activation_witness :
    applySigningOp SigningOp.requestSignature
        ⟨ActivationStatus.noActivation, 0, Option.none, true, false, false⟩ =
      Except.error PowerAuthErrorCode.missingActivation ∧
    applySigningOp SigningOp.requestSignature
        (removeActivationLocalOp ⟨ActivationStatus.valid, 2, Option.some "act2", true, true, true⟩) =
      Except.error PowerAuthErrorCode.missingActivation :=
  ⟨((signing_requires_valid_activation
      ⟨ActivationStatus.noActivation, 0, Option.none, true, false, false⟩).1
        (by decide)).1 SigningOp.requestSignature,
    (signing_requires_valid_activation
      ⟨ActivationStatus.valid, 2, Option.some "act2", true, true, true⟩).2 rfl⟩

/-- C7 counterexample: from a concrete Valid state holding all three factor
keys, `removeActivationLocal` does transition to NoActivation, but the cached
possession related key is still present afterwards, so it is not the case
that nothing of the stored key material remains in storage. -/
theorem removeActivationLocal_keeps_possession_key :
    (removeActivationLocalOp
        ⟨ActivationStatus.valid, 3, Option.some "actX", true, true, true⟩).status =
      ActivationStatus.noActivation ∧
    (removeActivationLocalOp
        ⟨ActivationStatus.valid, 3, Option.some "actX", true, true, true⟩).possessionKeyPresent =
      true :=
  ⟨rfl, rfl⟩

/-- C7 amended: from a Valid or Blocked state, `removeActivationLocal`
transitions to NoActivation, clearing the activation record and the knowledge
and biometry factor keys, while the cached possession related key remains
intact; `removeActivationWithAuthentication` performs the same local clearing
exactly when the remote removal succeeds and leaves the state unchanged when
it fails. -/
theorem remove_activation_transitions (s : SessionState)
    (h : s.status = ActivationStatus.valid ∨ s.status = ActivationStatus.blocked) :
    (removeActivationLocalOp s).status = ActivationStatus.noActivation ∧
    (removeActivationLocalOp s).activationId = Option.none ∧
    (removeActivationLocalOp s).knowledgeKeyPresent = false ∧
    (removeActivationLocalOp s).biometryKeyPresent = false ∧
    (removeActivationLocalOp s).possessionKeyPresent = s.possessionKeyPresent ∧
    removeActivationWithAuthenticationOp s true = (removeActivationLocalOp s, Except.ok ()) ∧
    removeActivationWithAuthenticationOp s false =
      (s, Except.error PowerAuthErrorCode.networkError) :=
  ⟨rfl, rfl, rfl, rfl, rfl, rfl, rfl⟩

/-- C7 witness: the amended removal behaviour at a concrete Valid state. -/
theorem remove_activation_transitions_witness :
    (removeActivationLocalOp
        ⟨ActivationStatus.valid, 1, Option.some "actW", true, false, true⟩).status =
      ActivationStatus.noActivation ∧
    (removeActivationLocalOp
        ⟨ActivationStatus.valid, 1, Option.some "actW", true, false, true⟩).activationId =
      Option.none ∧
    (removeActivationLocalOp
        ⟨ActivationStatus.valid, 1, Option.some "actW", true, false, true⟩).knowledgeKeyPresent =
      false ∧
    (removeActivationLocalOp
        ⟨ActivationStatus.valid, 1, Option.some "actW", true, false, true⟩).biometryKeyPresent =
      false ∧
    (removeActivationLocalOp
        ⟨ActivationStatus.valid, 1, Option.some "actW", true, false, true⟩).possessionKeyPresent =
      (⟨ActivationStatus.valid, 1, Option.some "actW", true, false, true⟩ : SessionState).possessionKeyPresent ∧
    removeActivationWithAuthenticationOp
        ⟨ActivationStatus.valid, 1, Option.some "actW", true, false, true⟩ true =
      (removeActivationLocalOp
        ⟨ActivationStatus.valid, 1, Option.some "actW", true, false, true⟩, Except.ok ()) ∧
    removeActivationWithAuthenticationOp
        ⟨ActivationStatus.valid, 1, Option.some "actW", true, false, true⟩ false =
      (⟨ActivationStatus.valid, 1, Option.some "actW", true, false, true⟩,
        Except.error PowerAuthErrorCode.networkError) :=
  remove_activation_transitions
    ⟨ActivationStatus.valid, 1, Option.some "actW", true, false, true⟩ (Or.inl rfl)

/-- Modelled from the spec: the persistence sub-steps executed by the native
commit. -/
inductive CommitStep where
  | storePossessionKey
  | storeKnowledgeKey
  | storeBiometryKey
  | persistActivationState
deriving DecidableEq

/-- Modelled from the spec: the ordered persistence sub-steps of a commit for
a given authentication: store the possession and knowledge factor keys, store
the biometry factor key when the authentication requests biometry, then
persist the activation state record marking the activation Valid. -/
def commitSteps (auth : PowerAuthAuthentication) : List CommitStep :=
  ([CommitStep.storePossessionKey, CommitStep.storeKnowledgeKey] ++
    (if auth.useBiometry then [CommitStep.storeBiometryKey] else [])) ++
    [CommitStep.persistActivationState]

/-- Modelled from the spec: the effect of one persistence sub-step on the
activation state. -/
def applyCommitStep (step : CommitStep) (s : SessionState) : SessionState :=
  match step with
  | CommitStep.storePossessionKey => { s with possessionKeyPresent := true }
  | CommitStep.storeKnowledgeKey => { s with knowledgeKeyPresent := true }
  | CommitStep.storeBiometryKey => { s with biometryKeyPresent := true }
  | CommitStep.persistActivationState => { s with status := ActivationStatus.valid }

/-- Modelled from the spec: run the persistence sub-steps in order against an
injected failure script; any failing sub-step aborts the whole run. -/
def runCommit (stepFails : CommitStep → Bool) (s : SessionState) :
    List CommitStep → Option SessionState
  | [] => Option.some s
  | step :: rest =>
      if stepFails step then Option.none
      else runCommit stepFails (applyCommitStep step s) rest

/-- Modelled from the spec: `commitActivation` is valid only from
PendingCreation, failing with InvalidActivationState otherwise; it runs the
persistence sub-steps in order and, whenever any sub-step fails mid-commit,
rolls the state fully back to the pre-commit state and surfaces a storage
error; on success all requested keys are stored and the activation is Valid. -/
def commitActivation (s : SessionState) (auth : PowerAuthAuthentication)
    (stepFails : CommitStep → Bool) : SessionState × Except PowerAuthErrorCode Unit :=
  if s.status = ActivationStatus.pendingCreation then
    match runCommit stepFails s (commitSteps auth) with
    | Option.some s2 => (s2, Except.ok ())
    | Option.none => (s, Except.error PowerAuthErrorCode.storageError)
  else (s, Except.error PowerAuthErrorCode.invalidActivationState)

/-- A commit run whose step list ends with the activation-state persistence
step leaves the activation Valid whenever it completes. -/
theorem runCommit_append_persist (stepFails : CommitStep → Bool) :
    ∀ (pre : List CommitStep) (s s2 : SessionState),
      runCommit stepFails s (pre ++ [CommitStep.persistActivationState]) = Option.some s2 →
      s2.status = ActivationStatus.valid := by
  intro pre
  induction pre with
  | nil =>
      intro s s2 h
      simp only [List.nil_append, runCommit] at h
      by_cases hf : stepFails CommitStep.persistActivationState
      · rw [if_pos hf] at h
        exact Option.noConfusion h
      · rw [if_neg hf] at h
        obtain rfl := Option.some.inj h
        rfl
  | cons st pre ih =>
      intro s s2 h
      simp only [List.cons_append, runCommit] at h
      by_cases hf : stepFails st
      · rw [if_pos hf] at h
        exact Option.noConfusion h
      · rw [if_neg hf] at h
        exact ih (applyCommitStep st s) s2 h

/-- C2: `commitActivation` is valid only from PendingCreation -- from any
other state it fails with InvalidActivationState and changes nothing -- and
it is atomic: whenever any persistence sub-step fails mid-commit the returned
state is exactly the pre-commit state (still PendingCreation, never a
partially persisted Valid), while on success the activation is Valid. -/
theorem commitActivation_atomic (s : SessionState) (auth : PowerAuthAuthentication)
    (stepFails : CommitStep → Bool) :
    (s.status ≠ ActivationStatus.pendingCreation →
      commitActivation s auth stepFails =
        (s, Except.error PowerAuthErrorCode.invalidActivationState)) ∧
    (s.status = ActivationStatus.pendingCreation →
      (∀ e, (commitActivation s auth stepFails).2 = Except.error e →
        (commitActivation s auth stepFails).1 = s) ∧
      ((commitActivation s auth stepFails).2 = Except.ok () →
        ((commitActivation s auth stepFails).1).status = ActivationStatus.valid)) := by
  constructor
  · intro h
    simp [commitActivation, h]
  · intro h
    constructor
    · intro e he
      unfold commitActivation at he ⊢
      rw [if_pos h] at he ⊢
      cases hr : runCommit stepFails s (commitSteps auth) with
      | none => simp [hr]
      | some s2 =>
          rw [hr] at he
          exact Except.noConfusion he
    · intro hok
      unfold commitActivation at hok ⊢
      rw [if_pos h] at hok ⊢
      cases hr : runCommit stepFails s (commitSteps auth) with
      | none =>
          rw [hr] at hok
          exact Except.noConfusion hok
      | some s2 =>
          exact runCommit_append_persist stepFails _ s s2 hr

/-- C2 witness: at a concrete PendingCreation state, a commit whose every
persistence sub-step fails returns exactly the pre-commit state. -/
theorem commitActivation_atomic_witness :
    (commitActivation
        ⟨ActivationStatus.pendingCreation, 0, Option.some "actC", false, false, false⟩
        ⟨true, false, Option.some "1234", Option.none, Option.none⟩ (fun _ => true)).1 =
      ⟨ActivationStatus.pendingCreation, 0, Option.some "actC", false, false, false⟩ :=
  ((commitActivation_atomic
      ⟨ActivationStatus.pendingCreation, 0, Option.some "actC", false, false, false⟩
      ⟨true, false, Option.some "1234", Option.none, Option.none⟩ (fun _ => true)).2 rfl).1
    PowerAuthErrorCode.storageError rfl

/-- Modelled from the spec: the possible server responses to one signed
request, as far as counter synchronization is concerned. -/
inductive ServerOutcome where
  | success
  | counterLag
  | serverError
deriving DecidableEq

/-- Modelled from the spec: one signed call with counter-desynchronization
recovery.  When the first server response indicates that the local counter
lags, exactly one resynchronization handshake is attempted before the call
result is surfaced: if the handshake succeeds the original call's result
(success, or a plain network failure) is surfaced, and if it fails a
CounterDesynchronized error is surfaced.  The second component counts the
recovery attempts performed during the call. -/
def performSignedCall (first : ServerOutcome) (recoverySucceeds : Bool)
    (succeedsAfterRecovery : Bool) : Except PowerAuthErrorCode Unit × Nat :=
  match first with
  | ServerOutcome.success => (Except.ok (), 0)
  | ServerOutcome.serverError => (Except.error PowerAuthErrorCode.networkError, 0)
  | ServerOutcome.counterLag =>
      if recoverySucceeds then
        ((if succeedsAfterRecovery then Except.ok ()
          else Except.error PowerAuthErrorCode.networkError), 1)
      else (Except.error PowerAuthErrorCode.counterDesynchronized, 1)

/-- C8: a signed call performs at most one automatic counter
resynchronization attempt, and a CounterDesynchronized error is surfaced to
the caller exactly when the server reported a counter lag and that single
recovery attempt itself failed. -/
theorem counter_recovery_at_most_once (first : ServerOutcome)
    (recoverySucceeds succeedsAfterRecovery : Bool) :
    (performSignedCall first recoverySucceeds succeedsAfterRecovery).2 ≤ 1 ∧
    ((performSignedCall first recoverySucceeds succeedsAfterRecovery).1 =
        Except.error PowerAuthErrorCode.counterDesynchronized ↔
      first = ServerOutcome.counterLag ∧ recoverySucceeds = false) := by
  cases first <;> cases recoverySucceeds <;> cases succeedsAfterRecovery <;>
    simp [performSignedCall]
